import Mathlib

/-!
# mapnik `utils.hpp`: the singleton holder and the UTF-8/UTF-16 helpers

A shallow embedding of `include/mapnik/utils.hpp`.

* Pointers are natural numbers, `0` being the null pointer, so that the tests
  `! pInstance_` and the assignment `pInstance_ = 0` read as in the source.
* The two static members `pInstance_` and `destroyed_` are fields of a `World`,
  next to what the C++ runtime keeps around them: the functions registered with
  `std::atexit`, the objects alive on the heap, and a record of the calls made to
  the creation policy.
* A C++ function that may throw returns an `Outcome` together with the world it
  leaves behind.
* The code is followed on one thread: `mutex::scoped_lock` is then always free
  when it is taken and is released on every way out of its block (also by an
  exception), so it leaves no trace in the world.
* The call `std::atexit(&DestroySingleton)` registers the function; the code does
  not look at its result.
* The Windows routines behind `utf16_to_utf8` and `utf8_to_utf16` are parameters.
-/

namespace mapnik

/-- A pointer `T*`; `0` is the null pointer. -/
abbrev Ptr := Nat

/-- A C++ exception in flight. -/
inductive Exn where
  /-- The exception `std::runtime_error(what)`. -/
  | runtime_error (what : String)
  /-- Any other exception, for instance `std::bad_alloc` or one thrown by the
  constructor of the payload. -/
  | other (code : Nat)
  deriving DecidableEq, Repr

/-- How a call of `singleton::instance()` ends. -/
inductive Outcome where
  /-- The call returns the reference `*p`, with `p` not null. -/
  | ref (p : Ptr)
  /-- The call is left by the exception `e`. -/
  | raise (e : Exn)
  /-- The call reaches `return *pInstance_` with `pInstance_` null: the behaviour
  of the program is undefined from there on. -/
  | undefined
  deriving DecidableEq, Repr

/-- A function registered with `std::atexit`. The holder registers only
`&DestroySingleton`. -/
inductive Hook where
  | DestroySingleton
  deriving DecidableEq, Repr

/-- The objects of the payload type `T` that are alive, by address. -/
abbrev Heap (T : Type) := List (Ptr × T)

/-- The object at address `p`, when one is alive there. -/
def Heap.read {T : Type} (h : Heap T) (p : Ptr) : Option T :=
  (h.find? (fun c => c.1 == p)).map (fun c => c.2)

/-- End the lifetime of the object at address `p`. -/
def Heap.free {T : Type} (h : Heap T) (p : Ptr) : Heap T :=
  h.filter (fun c => c.1 != p)

/-- Start the lifetime of an object with value `v` at address `p`. -/
def Heap.write {T : Type} (h : Heap T) (p : Ptr) (v : T) : Heap T :=
  (p, v) :: h.free p

/-- The static members of `singleton<T, CreatePolicy>` and the part of the process
they act on. -/
structure World (T : Type) where
  /-- Member `static T* pInstance_`. -/
  pInstance_ : Ptr
  /-- Member `static bool destroyed_`. -/
  destroyed_ : Bool
  /-- The number of calls of `CreatePolicy<T>::create()` made so far. -/
  creates : Nat
  /-- The pointers `CreatePolicy<T>::create()` has returned, latest first. -/
  constructed : List Ptr
  /-- The arguments `CreatePolicy<T>::destroy` has been called with, latest first. -/
  destroys : List Ptr
  /-- The functions registered with `std::atexit` and not run yet, latest first. -/
  atexit : List Hook
  /-- The payload objects that are alive. -/
  heap : Heap T
  deriving DecidableEq, Repr

/-- The state of the process at start: `pInstance_ = 0`, `destroyed_ = false`
(the two definitions after the class), nothing created, destroyed or registered. -/
def World.init (T : Type) : World T :=
  { pInstance_ := 0, destroyed_ := false, creates := 0, constructed := [],
    destroys := [], atexit := [], heap := [] }

/-- A creation policy, `template <typename U> class CreatePolicy`.

`create k` is what the call number `k` (from `0`) of `CreatePolicy<T>::create()`
does: it returns a pointer to a newly constructed `T`, or throws. `value` is the
value of a default-constructed `T` (`new T`, `new(&staticMemory) T`). -/
structure CreatePolicy (T : Type) where
  create : Nat → Except Exn Ptr
  value : T

/-- Policy `CreateUsingNew<T>`: `create()` is `return new T;`. `alloc k` is the address
the allocator hands out at call `k`, or the exception of the allocator or of the
constructor of `T`. -/
def CreateUsingNew {T : Type} (alloc : Nat → Except Exn Ptr) (value : T) : CreatePolicy T :=
  { create := alloc, value := value }

/-- Policy `CreateStatic<T>`: `create()` is `return new(&staticMemory) T;`. `staticMemory`
is the address of the static buffer and `ctor k` tells whether the constructor of
`T` throws at call `k`. -/
def CreateStatic {T : Type} (staticMemory : Ptr) (ctor : Nat → Option Exn) (value : T) :
    CreatePolicy T :=
  { create := fun k =>
      match ctor k with
      | some e => .error e
      | none => .ok staticMemory
    value := value }

namespace singleton

/-- Member `static void onDeadReference()`: it always throws
`std::runtime_error("dead reference!")`; this is the exception thrown. -/
def onDeadReference : Exn := .runtime_error "dead reference!"

/-- Member `static void DestroySingleton()`:
```
CreatePolicy<T>::destroy(pInstance_);
pInstance_ = 0;
destroyed_ = true;
```
`destroy` (`delete obj` or `obj->~T()`) ends the lifetime of the object. -/
def DestroySingleton {T : Type} (w : World T) : World T :=
  let w1 := { w with destroys := w.pInstance_ :: w.destroys, heap := w.heap.free w.pInstance_ }
  let w2 := { w1 with pInstance_ := 0 }
  { w2 with destroyed_ := true }

/-- The last statement of `instance()`, `return *pInstance_;`. -/
def deref {T : Type} (w : World T) : Outcome × World T :=
  if w.pInstance_ = 0 then (.undefined, w) else (.ref w.pInstance_, w)

/-- Member `static T& instance()` (the name `instance` is reserved in Lean):
```
if (! pInstance_)
{
    mutex::scoped_lock lock(mutex_);      // MAPNIK_THREADSAFE only
    if (! pInstance_)
    {
        if (destroyed_)
        {
            destroyed_ = false;
            onDeadReference();
        }
        else
        {
            pInstance_ = CreatePolicy<T>::create();
            std::atexit(&DestroySingleton);
        }
    }
}
return *pInstance_;
```
-/
def instance' {T : Type} (P : CreatePolicy T) (w : World T) : Outcome × World T :=
  if w.pInstance_ = 0 then
    if w.pInstance_ = 0 then
      if w.destroyed_ then
        let w1 := { w with destroyed_ := false }
        (.raise onDeadReference, w1)
      else
        match P.create w.creates with
        | .error e => (.raise e, { w with creates := w.creates + 1 })
        | .ok p =>
          let w1 := { w with
            creates := w.creates + 1
            constructed := p :: w.constructed
            heap := w.heap.write p P.value
            pInstance_ := p }
          let w2 := { w1 with atexit := Hook.DestroySingleton :: w1.atexit }
          deref w2
    else deref w
  else deref w

end singleton

/-- What a registered function does when it is run. -/
def Hook.run {T : Type} : Hook → World T → World T
  | .DestroySingleton, w => singleton.DestroySingleton w

/-- Run the registered functions `hs` in order. -/
def runHooks {T : Type} : List Hook → World T → World T
  | [], w => w
  | h :: hs, w => runHooks hs (h.run w)

/-- Process exit (`std::exit`, or return from `main`): every function registered with
`std::atexit` is run, the latest registered first. -/
def exit {T : Type} (w : World T) : World T :=
  runHooks w.atexit { w with atexit := [] }

/-- Make `n` calls of `instance()` one after the other; a caller that gets an exception
catches it and goes on. The outcomes are listed first call first. -/
def calls {T : Type} (P : CreatePolicy T) : Nat → World T → List Outcome × World T
  | 0, w => ([], w)
  | n + 1, w =>
    let r := singleton.instance' P w
    let rs := calls P n r.2
    (r.1 :: rs.1, rs.2)

/-- What the program does next: a call of `instance()`, or the run of the function
registered last with `std::atexit` (as process exit does, one function at a time). -/
inductive Action where
  | call
  | hook
  deriving DecidableEq, Repr

/-- One action. There is no next state after a call whose behaviour is undefined, and
no function to run when none is registered. -/
def step {T : Type} (P : CreatePolicy T) : Action → World T → Option (World T)
  | .call, w =>
    match singleton.instance' P w with
    | (.undefined, _) => none
    | (_, w1) => some w1
  | .hook, w =>
    match w.atexit with
    | [] => none
    | h :: hs => some (h.run { w with atexit := hs })

/-- The state after the actions `as`, first action first. -/
def run {T : Type} (P : CreatePolicy T) : List Action → World T → Option (World T)
  | [], w => some w
  | a :: as, w => (step P a w).bind (run P as)

/-- Modelled from the spec: the counter payload of Scenario A and its `increment()`,
which the source does not have. The payload is a counter constructed at `0`;
`increment r` adds one to the counter the reference `r` denotes. -/
def increment (r : Ptr) (w : World Nat) : World Nat :=
  { w with heap := w.heap.map (fun c => if c.1 = r then (c.1, c.2 + 1) else c) }

/-- The statement `instance().increment();` of Scenario A. -/
def instance_increment (P : CreatePolicy Nat) (w : World Nat) : Outcome × World Nat :=
  match singleton.instance' P w with
  | (.ref r, w1) => (.ref r, increment r w1)
  | (o, w1) => (o, w1)

/-- The Windows conversion routines `WideCharToMultiByte` and `MultiByteToWideChar`,
as the two helpers call them (code page `CP_UTF8`, input length `-1`): from the
zero-terminated input and the capacity of the output buffer (`0` with a null
buffer, the sizing call) to the `int` returned and the units written. -/
abbrev Conv := List Nat → Nat → Int × List Nat

/-- The units `c_str()` shows to a routine that reads up to the first zero. -/
def c_str (s : List Nat) : List Nat := s.takeWhile (fun c => c != 0)

/-- A `std::vector` of `size` zeros after a routine wrote `written` into it. -/
def filled (size : Nat) (written : List Nat) : List Nat :=
  written.take size ++ List.replicate (size - written.length) 0

/-- Function `std::string utf16_to_utf8(std::wstring const& wstr)`:
```
std::string str;
int size = WideCharToMultiByte(CP_UTF8, 0, wstr.c_str(), -1, 0, 0, 0, 0);
if(size > 0)
{
    std::vector<char> buffer(size);
    WideCharToMultiByte(CP_UTF8, 0, wstr.c_str(), -1, &buffer[0], size, 0, 0);
    str.assign(buffer.begin(), buffer.end() - 1);
}
return str;
```
-/
def utf16_to_utf8 (WideCharToMultiByte : Conv) (wstr : List Nat) : List Nat :=
  let str : List Nat := []
  let size := (WideCharToMultiByte (c_str wstr) 0).1
  if size > 0 then
    let buffer := filled size.toNat (WideCharToMultiByte (c_str wstr) size.toNat).2
    buffer.dropLast
  else str

/-- Function `std::wstring utf8_to_utf16 (std::string const& str)`:
```
std::wstring wstr;
int size = MultiByteToWideChar(CP_UTF8, 0, str.c_str(), -1, 0, 0);
if (size > 0)
{
    std::vector<wchar_t> buffer(size);
    MultiByteToWideChar(CP_UTF8, 0, str.c_str(), -1, &buffer[0], size);
    wstr.assign(buffer.begin(), buffer.end() - 1);
}
return wstr;
```
-/
def utf8_to_utf16 (MultiByteToWideChar : Conv) (str : List Nat) : List Nat :=
  let wstr : List Nat := []
  let size := (MultiByteToWideChar (c_str str) 0).1
  if size > 0 then
    let buffer := filled size.toNat (MultiByteToWideChar (c_str str) size.toNat).2
    buffer.dropLast
  else wstr

/-! ## Concrete policies and states, for the examples -/

/-- Example policy: `CreateStatic` for a counter, with the static buffer at address
`7` and a constructor that never throws. -/
def counterStatic : CreatePolicy Nat := CreateStatic 7 (fun _ => none) 0

/-- Example policy: `CreateUsingNew` for a counter whose first `create()` throws and
whose later ones return address `7`. -/
def failsOnce : CreatePolicy Nat :=
  CreateUsingNew (fun k => if k = 0 then .error (.other 1) else .ok 7) 0

/-- Example policy: `CreateUsingNew` for a counter whose `create()` always throws. -/
def alwaysFails : CreatePolicy Nat := CreateUsingNew (fun _ => .error (.other 1)) 0

/-- Example state: a fresh process, one call of `instance()`, then the run of the
teardown hook. -/
def tornDown : World Nat :=
  singleton.DestroySingleton (singleton.instance' counterStatic (World.init Nat)).2

/-- Example policy for the conversion helpers: a routine that reports a required size
of zero for every input. -/
def reportsZero : Conv := fun _ _ => (0, [])

/-- The shape of the states the holder goes through: with the slot empty no hook is
registered and no payload is alive; with the slot populated exactly one hook is
registered, `destroyed_` is clear and the one payload alive is the one in the slot;
and the payloads constructed outnumber the `destroy()` calls by the payload in the
slot. -/
def WellFormed {T : Type} (w : World T) : Prop :=
  (w.pInstance_ = 0 →
      w.atexit = [] ∧ w.heap.map Prod.fst = []
        ∧ w.constructed.length = w.destroys.length)
    ∧ (w.pInstance_ ≠ 0 →
      w.atexit = [Hook.DestroySingleton] ∧ w.destroyed_ = false
        ∧ w.heap.map Prod.fst = [w.pInstance_]
        ∧ w.constructed.length = w.destroys.length + 1)

/-- Example policy: one whose `create()` returns the null pointer. -/
def returnsNull : CreatePolicy Nat := CreateUsingNew (fun _ => .ok 0) 0

/-- Example state: a fresh process after one call of `instance()`, the slot holding
the counter at address `7`. -/
def populated : World Nat := (singleton.instance' counterStatic (World.init Nat)).2

/-! ## The accessor, case by case -/

/-- With the slot populated the call returns the stored pointer and changes nothing. -/
theorem instance_populated {T : Type} (P : CreatePolicy T) (w : World T)
    (h : w.pInstance_ ≠ 0) : singleton.instance' P w = (.ref w.pInstance_, w) := by
  simp [singleton.instance', singleton.deref, h]

/-- With the slot empty and `destroyed_` set the call clears `destroyed_` and throws. -/
theorem instance_dead {T : Type} (P : CreatePolicy T) (w : World T)
    (h0 : w.pInstance_ = 0) (hd : w.destroyed_ = true) :
    singleton.instance' P w
      = (.raise singleton.onDeadReference, { w with destroyed_ := false }) := by
  simp [singleton.instance', h0, hd]

/-- With the slot empty, `destroyed_` clear and a `create()` that throws `e`, the call
throws `e` and only the count of `create()` calls changes. -/
theorem instance_create_error {T : Type} (P : CreatePolicy T) (w : World T) (e : Exn)
    (h0 : w.pInstance_ = 0) (hd : w.destroyed_ = false)
    (hc : P.create w.creates = .error e) :
    singleton.instance' P w = (.raise e, { w with creates := w.creates + 1 }) := by
  simp [singleton.instance', h0, hd, hc]

/-- With the slot empty, `destroyed_` clear and a `create()` that returns `p`, not
null, the call stores `p`, registers `DestroySingleton` and returns `p`. -/
theorem instance_create_ok {T : Type} (P : CreatePolicy T) (w : World T) (p : Ptr)
    (h0 : w.pInstance_ = 0) (hd : w.destroyed_ = false)
    (hc : P.create w.creates = .ok p) (hp : p ≠ 0) :
    singleton.instance' P w
      = (.ref p, { w with
          creates := w.creates + 1
          constructed := p :: w.constructed
          heap := w.heap.write p P.value
          pInstance_ := p
          atexit := Hook.DestroySingleton :: w.atexit }) := by
  simp [singleton.instance', singleton.deref, h0, hd, hc, hp]

/-- Calls on a populated slot all return the stored pointer and change nothing. -/
theorem calls_populated {T : Type} (P : CreatePolicy T) (n : Nat) (w : World T)
    (h : w.pInstance_ ≠ 0) :
    calls P n w = (List.replicate n (.ref w.pInstance_), w) := by
  induction n with
  | zero => rfl
  | succ n ih => simp [calls, instance_populated P w h, ih, List.replicate_succ]

/-- Calls one after the other compose. -/
theorem calls_add {T : Type} (P : CreatePolicy T) (a b : Nat) (w : World T) :
    calls P (a + b) w
      = ((calls P a w).1 ++ (calls P b (calls P a w).2).1, (calls P b (calls P a w).2).2) := by
  induction a generalizing w with
  | zero => simp [calls]
  | succ a ih =>
    have h : a + 1 + b = (a + b) + 1 := by omega
    rw [h]
    simp [calls, ih]

/-- As long as `create()` throws, an uninitialised holder stays uninitialised: `k`
calls all throw and only the count of `create()` calls moves. -/
theorem calls_all_raise {T : Type} (P : CreatePolicy T) (k : Nat) (w : World T)
    (h0 : w.pInstance_ = 0) (hd : w.destroyed_ = false)
    (hf : ∀ j, j < k → ∃ e, P.create (w.creates + j) = .error e) :
    (calls P k w).2 = { w with creates := w.creates + k }
      ∧ ∀ o ∈ (calls P k w).1, ∃ e, o = .raise e := by
  induction k generalizing w with
  | zero => simp [calls]
  | succ k ih =>
    obtain ⟨e, he⟩ := hf 0 (by omega)
    have hstep := instance_create_error P w e h0 hd (by simpa using he)
    have hf1 : ∀ j, j < k →
        ∃ e, P.create (({ w with creates := w.creates + 1 } : World T).creates + j) = .error e := by
      intro j hj
      have := hf (j + 1) (by omega)
      have hidx : w.creates + 1 + j = w.creates + (j + 1) := by omega
      simpa [hidx] using this
    have := ih { w with creates := w.creates + 1 } h0 hd hf1
    simp only [calls, hstep]
    refine ⟨?_, ?_⟩
    · rw [this.1]
      have hidx : w.creates + 1 + k = w.creates + (k + 1) := by omega
      simp [hidx]
    · intro o ho
      rcases List.mem_cons.mp ho with h | h
      · exact ⟨e, h⟩
      · exact this.2 o h

/-- Freeing the address of the only live object empties the heap. -/
theorem free_only {T : Type} (h : Heap T) (p : Ptr) (hh : h.map Prod.fst = [p]) :
    h.free p = [] := by
  match h, hh with
  | [c], hc =>
    have : c.1 = p := by simpa using hc
    simp [Heap.free, this]

/-- The fresh process is well formed. -/
theorem wellFormed_init (T : Type) : WellFormed (World.init T) := by
  simp [WellFormed, World.init]

/-- Every action keeps the state well formed. -/
theorem wellFormed_step {T : Type} (P : CreatePolicy T) (a : Action) (w w1 : World T)
    (hw : WellFormed w) (hs : step P a w = some w1) : WellFormed w1 := by
  cases a with
  | call =>
    by_cases h0 : w.pInstance_ = 0
    · obtain ⟨hat, hheap, hlen⟩ := hw.1 h0
      cases hd : w.destroyed_ with
      | true =>
        simp only [step, instance_dead P w h0 hd] at hs
        cases hs
        have hnil : w.heap = [] := by simpa using hheap
        simp [WellFormed, h0, hat, hnil, hlen]
      | false =>
        cases hc : P.create w.creates with
        | error e =>
          simp only [step, instance_create_error P w e h0 hd hc] at hs
          cases hs
          have hnil : w.heap = [] := by simpa using hheap
          simp [WellFormed, h0, hat, hnil, hlen]
        | ok p =>
          by_cases hp : p = 0
          · simp [step, singleton.instance', singleton.deref, h0, hd, hc, hp] at hs
          · simp only [step, instance_create_ok P w p h0 hd hc hp] at hs
            cases hs
            have hnil : w.heap = [] := by simpa using hheap
            simp [WellFormed, hp, hat, hlen, hnil, hd, Heap.write, Heap.free]
    · simp only [step, instance_populated P w h0] at hs
      cases hs
      exact hw
  | hook =>
    by_cases h0 : w.pInstance_ = 0
    · simp [step, (hw.1 h0).1] at hs
    · obtain ⟨hat, _, hheap, hlen⟩ := hw.2 h0
      simp only [step, hat, Hook.run] at hs
      cases hs
      simp [WellFormed, singleton.DestroySingleton, free_only w.heap w.pInstance_ hheap, hlen]

/-- Every state reached from a well-formed one is well formed. -/
theorem wellFormed_run {T : Type} (P : CreatePolicy T) (as : List Action) (w w1 : World T)
    (hw : WellFormed w) (hr : run P as w = some w1) : WellFormed w1 := by
  induction as generalizing w with
  | nil =>
    simp only [run, Option.some.injEq] at hr
    exact hr ▸ hw
  | cons a as ih =>
    simp only [run] at hr
    cases hs : step P a w with
    | none => simp [hs] at hr
    | some w2 =>
      rw [hs] at hr
      exact ih w2 (wellFormed_step P a w w2 hw hs) hr

/-- A call of `instance()` never calls `destroy()`. -/
theorem instance_destroys {T : Type} (P : CreatePolicy T) (w : World T) :
    (singleton.instance' P w).2.destroys = w.destroys := by
  by_cases h0 : w.pInstance_ = 0
  · cases hd : w.destroyed_ with
    | true => rw [instance_dead P w h0 hd]
    | false =>
      cases hc : P.create w.creates with
      | error e => rw [instance_create_error P w e h0 hd hc]
      | ok p =>
        by_cases hp : p = 0
        · simp [singleton.instance', singleton.deref, h0, hd, hc, hp]
        · rw [instance_create_ok P w p h0 hd hc hp]
  · rw [instance_populated P w h0]

/-- From a well-formed state, an action keeps every argument given to `destroy()` so
far non-null. -/
theorem destroys_step {T : Type} (P : CreatePolicy T) (a : Action) (w w1 : World T)
    (hw : WellFormed w) (hn : ∀ q ∈ w.destroys, q ≠ 0) (hs : step P a w = some w1) :
    ∀ q ∈ w1.destroys, q ≠ 0 := by
  cases a with
  | call =>
    have hd : w1.destroys = w.destroys := by
      have hi := instance_destroys P w
      simp only [step] at hs
      split at hs
      · cases hs
      · cases hs
        next heq => rw [heq] at hi; exact hi
    rw [hd]
    exact hn
  | hook =>
    by_cases h0 : w.pInstance_ = 0
    · simp [step, (hw.1 h0).1] at hs
    · obtain ⟨hat, _, _, _⟩ := hw.2 h0
      simp only [step, hat, Hook.run] at hs
      cases hs
      intro q hq
      simp only [singleton.DestroySingleton, List.mem_cons] at hq
      rcases hq with h | h
      · rw [h]; exact h0
      · exact hn q h

/-- Every argument given to `destroy()` on the way to a reached state is non-null. -/
theorem destroys_run {T : Type} (P : CreatePolicy T) (as : List Action) (w w1 : World T)
    (hw : WellFormed w) (hn : ∀ q ∈ w.destroys, q ≠ 0) (hr : run P as w = some w1) :
    ∀ q ∈ w1.destroys, q ≠ 0 := by
  induction as generalizing w with
  | nil =>
    simp only [run, Option.some.injEq] at hr
    exact hr ▸ hn
  | cons a as ih =>
    simp only [run] at hr
    cases hs : step P a w with
    | none => simp [hs] at hr
    | some w2 =>
      rw [hs] at hr
      exact ih w2 (wellFormed_step P a w w2 hw hs) (destroys_step P a w w2 hw hn hs) hr

/-- A `create()` that returns the null pointer takes `instance()` to the dereference
of a null slot. -/
theorem instance_null_create_undefined :
    (singleton.instance' returnsNull (World.init Nat)).1 = .undefined := by
  decide

/-- An action keeps the payloads constructed at most as many as the calls of
`create()`; and with a `create()` that never throws it keeps the two counts equal. -/
theorem counts_step {T : Type} (P : CreatePolicy T) (a : Action) (w w1 : World T)
    (hs : step P a w = some w1) :
    (w.constructed.length ≤ w.creates → w1.constructed.length ≤ w1.creates)
      ∧ ((∀ k, ∃ p, P.create k = .ok p) → w.creates = w.constructed.length →
          w1.creates = w1.constructed.length) := by
  cases a with
  | call =>
    by_cases h0 : w.pInstance_ = 0
    · cases hd : w.destroyed_ with
      | true =>
        simp only [step, instance_dead P w h0 hd] at hs
        cases hs
        exact ⟨fun h => h, fun _ h => h⟩
      | false =>
        cases hc : P.create w.creates with
        | error e =>
          simp only [step, instance_create_error P w e h0 hd hc] at hs
          cases hs
          refine ⟨fun h => Nat.le_succ_of_le h, fun hP _ => ?_⟩
          obtain ⟨p, hp⟩ := hP w.creates
          rw [hc] at hp
          cases hp
        | ok p =>
          by_cases hp : p = 0
          · simp [step, singleton.instance', singleton.deref, h0, hd, hc, hp] at hs
          · simp only [step, instance_create_ok P w p h0 hd hc hp] at hs
            cases hs
            refine ⟨fun h => ?_, fun _ h => ?_⟩
            · simpa using h
            · simpa using h
    · simp only [step, instance_populated P w h0] at hs
      cases hs
      exact ⟨fun h => h, fun _ h => h⟩
  | hook =>
    cases hat : w.atexit with
    | nil => simp [step, hat] at hs
    | cons h hs1 =>
      cases h
      simp only [step, hat, Hook.run] at hs
      cases hs
      exact ⟨fun h => h, fun _ h => h⟩

/-- In every reached state the payloads constructed are at most as many as the calls
of `create()`, and as many when `create()` never throws. -/
theorem counts_run {T : Type} (P : CreatePolicy T) (as : List Action) (w w1 : World T)
    (hr : run P as w = some w1) :
    (w.constructed.length ≤ w.creates → w1.constructed.length ≤ w1.creates)
      ∧ ((∀ k, ∃ p, P.create k = .ok p) → w.creates = w.constructed.length →
          w1.creates = w1.constructed.length) := by
  induction as generalizing w with
  | nil =>
    simp only [run, Option.some.injEq] at hr
    subst hr
    exact ⟨fun h => h, fun _ h => h⟩
  | cons a as ih =>
    simp only [run] at hr
    cases hs : step P a w with
    | none => simp [hs] at hr
    | some w2 =>
      rw [hs] at hr
      have h1 := counts_step P a w w2 hs
      have h2 := ih w2 hr
      exact ⟨fun h => h2.1 (h1.1 h), fun hP h => h2.2 hP (h1.2 hP h)⟩

/-! ## Use after destruction -/

/-- C1. In every state with the slot empty and `destroyed_` set (the state the
teardown hook leaves), `instance()` throws `std::runtime_error("dead reference!")`
and does not construct: `create()` is not called, nothing is constructed, no hook is
registered, the heap is as before and the slot is still empty. -/
theorem C1_dead_reference_does_not_construct {T : Type} (P : CreatePolicy T) (w : World T)
    (h0 : w.pInstance_ = 0) (hd : w.destroyed_ = true) :
    (singleton.instance' P w).1 = .raise (.runtime_error "dead reference!")
      ∧ (singleton.instance' P w).2.creates = w.creates
      ∧ (singleton.instance' P w).2.constructed = w.constructed
      ∧ (singleton.instance' P w).2.atexit = w.atexit
      ∧ (singleton.instance' P w).2.heap = w.heap
      ∧ (singleton.instance' P w).2.pInstance_ = 0 := by
  rw [instance_dead P w h0 hd]
  exact ⟨rfl, rfl, rfl, rfl, rfl, h0⟩

/-- C1 at `tornDown`, which has the slot empty and `destroyed_` set. -/
theorem C1_dead_reference_witness :
    (tornDown.pInstance_ = 0 ∧ tornDown.destroyed_ = true)
    ∧ (singleton.instance' counterStatic tornDown).1 = .raise (.runtime_error "dead reference!")
    ∧ (singleton.instance' counterStatic tornDown).2.creates = tornDown.creates
    ∧ (singleton.instance' counterStatic tornDown).2.constructed = tornDown.constructed
    ∧ (singleton.instance' counterStatic tornDown).2.atexit = tornDown.atexit
    ∧ (singleton.instance' counterStatic tornDown).2.heap = tornDown.heap
    ∧ (singleton.instance' counterStatic tornDown).2.pInstance_ = 0 :=
  ⟨by decide, C1_dead_reference_does_not_construct counterStatic tornDown (by decide) (by decide)⟩

/-- C3. On a fresh holder whose `create()` succeeds (it returns `p`, not null), every
call of a non-empty sequence of `instance()` calls returns a reference to `p`, and
`p` is what the one call of `create()` returned. -/
theorem C3_single_identity {T : Type} (P : CreatePolicy T) (n : Nat) (p : Ptr)
    (hn : 0 < n) (hc : P.create 0 = .ok p) (hp : p ≠ 0) :
    (calls P n (World.init T)).1 = List.replicate n (.ref p)
      ∧ (∀ o ∈ (calls P n (World.init T)).1, o = .ref p)
      ∧ (calls P n (World.init T)).2.creates = 1
      ∧ (calls P n (World.init T)).2.constructed = [p]
      ∧ (calls P n (World.init T)).2.pInstance_ = p := by
  obtain ⟨m, rfl⟩ : ∃ m, n = m + 1 := ⟨n - 1, by omega⟩
  have hstep := instance_create_ok P (World.init T) p rfl rfl hc hp
  have hall : (calls P (m + 1) (World.init T)).1 = List.replicate (m + 1) (.ref p) := by
    simp only [calls, hstep]
    rw [calls_populated P m _ hp]
    simp [List.replicate_succ]
  refine ⟨hall, ?_, ?_, ?_, ?_⟩
  · intro o ho
    rw [hall] at ho
    exact List.eq_of_mem_replicate ho
  all_goals
    simp only [calls, hstep]
    rw [calls_populated P m _ hp]
    try simp [World.init]

/-- C3 at five calls with `counterStatic`. -/
theorem C3_single_identity_witness :
    0 < 5 ∧ (calls counterStatic 5 (World.init Nat)).1 = List.replicate 5 (.ref 7) :=
  ⟨by decide, (C3_single_identity counterStatic 5 7 (by decide) rfl (by decide)).1⟩

/-- C4, as amended. On a fresh holder whose first `create()` succeeds (it returns `p`,
not null), `create()` has been called exactly once after `n ≥ 1` calls of
`instance()`, namely by the first call; and with a counter payload two
`instance().increment()` statements leave the counter at `2` with one `create()`. -/
theorem C4_create_once {T : Type} (P : CreatePolicy T) (n : Nat) (p : Ptr)
    (hn : 0 < n) (hc : P.create 0 = .ok p) (hp : p ≠ 0) :
    (calls P n (World.init T)).2.creates = 1
      ∧ (calls P 1 (World.init T)).2.creates = 1
      ∧ (∀ Q : CreatePolicy Nat, Q.create 0 = .ok p → Q.value = 0 →
          (instance_increment Q (instance_increment Q (World.init Nat)).2).2.heap.read p = some 2
            ∧ (instance_increment Q (instance_increment Q (World.init Nat)).2).2.creates = 1) := by
  have hfirst : ∀ (U : Type) (Q : CreatePolicy U), Q.create 0 = .ok p →
      singleton.instance' Q (World.init U)
        = (.ref p, { World.init U with
            creates := 1
            constructed := [p]
            heap := [(p, Q.value)]
            pInstance_ := p
            atexit := [Hook.DestroySingleton] }) := by
    intro U Q hq
    rw [instance_create_ok Q (World.init U) p rfl rfl hq hp]
    simp [World.init, Heap.write, Heap.free]
  obtain ⟨m, rfl⟩ : ∃ m, n = m + 1 := ⟨n - 1, by omega⟩
  refine ⟨?_, ?_, ?_⟩
  · simp only [calls, hfirst T P hc]
    rw [calls_populated P m _ hp]
  · simp [calls, hfirst T P hc]
  · intro Q hq hv
    have h1 : instance_increment Q (World.init Nat)
        = (.ref p, { World.init Nat with
            creates := 1
            constructed := [p]
            heap := [(p, 1)]
            pInstance_ := p
            atexit := [Hook.DestroySingleton] }) := by
      simp [instance_increment, hfirst Nat Q hq, increment, hv]
    have h2 := instance_populated Q
      { World.init Nat with
        creates := 1
        constructed := [p]
        heap := [(p, 1)]
        pInstance_ := p
        atexit := [Hook.DestroySingleton] } hp
    rw [h1]
    simp [instance_increment, h2, increment, Heap.read]

/-- C4 as amended, at three calls with `counterStatic`. -/
theorem C4_create_once_witness :
    0 < 3 ∧ (calls counterStatic 3 (World.init Nat)).2.creates = 1
      ∧ (instance_increment counterStatic
          (instance_increment counterStatic (World.init Nat)).2).2.heap.read 7 = some 2 :=
  ⟨by decide, (C4_create_once counterStatic 3 7 (by decide) rfl (by decide)).1,
   ((C4_create_once counterStatic 3 7 (by decide) rfl (by decide)).2.2
      counterStatic rfl rfl).1⟩

/-- C4 fails as stated: when the first `create()` throws, two calls of `instance()` on
a fresh holder before teardown call `create()` twice. -/
theorem C4_create_twice_after_failure :
    (calls failsOnce 2 (World.init Nat)).1 = [.raise (.other 1), .ref 7]
      ∧ (calls failsOnce 2 (World.init Nat)).2.creates = 2
      ∧ (calls failsOnce 2 (World.init Nat)).2.creates ≠ 1 := by
  decide

/-- C5. In an uninitialised state, when `create()` throws `e`: `instance()` throws
`e`, the slot stays empty, `destroyed_` stays clear, no hook is registered and nothing
is constructed; and after any number `k` of further calls whose `create()` throws, a
call whose `create()` returns `p`, not null, stores `p`, registers the hook and
returns `p`. -/
theorem C5_create_failure_retryable {T : Type} (P : CreatePolicy T) (w : World T) (e : Exn)
    (h0 : w.pInstance_ = 0) (hd : w.destroyed_ = false)
    (hc : P.create w.creates = .error e) :
    (singleton.instance' P w).1 = .raise e
      ∧ (singleton.instance' P w).2.pInstance_ = 0
      ∧ (singleton.instance' P w).2.destroyed_ = false
      ∧ (singleton.instance' P w).2.atexit = w.atexit
      ∧ (singleton.instance' P w).2.constructed = w.constructed
      ∧ (singleton.instance' P w).2.heap = w.heap
      ∧ ∀ k p, (∀ j, j < k → ∃ e1, P.create (w.creates + 1 + j) = .error e1) →
          P.create (w.creates + 1 + k) = .ok p → p ≠ 0 →
          (singleton.instance' P (calls P k (singleton.instance' P w).2).2).1 = .ref p
            ∧ (singleton.instance' P (calls P k (singleton.instance' P w).2).2).2.pInstance_ = p
            ∧ (singleton.instance' P (calls P k (singleton.instance' P w).2).2).2.constructed
                = p :: w.constructed
            ∧ (singleton.instance' P (calls P k (singleton.instance' P w).2).2).2.atexit
                = Hook.DestroySingleton :: w.atexit
            ∧ (singleton.instance' P (calls P k (singleton.instance' P w).2).2).2.heap.read p
                = some P.value := by
  rw [instance_create_error P w e h0 hd hc]
  refine ⟨rfl, h0, hd, rfl, rfl, rfl, ?_⟩
  intro k p hf hk hp
  have hrun := (calls_all_raise P k { w with creates := w.creates + 1 } h0 hd hf).1
  simp only at hrun ⊢
  rw [hrun]
  rw [instance_create_ok P { w with creates := w.creates + 1 + k } p h0 hd hk hp]
  simp [Heap.read, Heap.write]

/-- C5 at a fresh holder with `failsOnce`: the first call throws, the second
constructs. -/
theorem C5_create_failure_witness :
    ((World.init Nat).pInstance_ = 0 ∧ (World.init Nat).destroyed_ = false)
      ∧ (singleton.instance' failsOnce (World.init Nat)).1 = .raise (.other 1)
      ∧ (singleton.instance' failsOnce (World.init Nat)).2.pInstance_ = 0 :=
  ⟨by decide,
   (C5_create_failure_retryable failsOnce (World.init Nat) (.other 1) rfl rfl rfl).1,
   (C5_create_failure_retryable failsOnce (World.init Nat) (.other 1) rfl rfl rfl).2.1⟩

/-! ## Teardown -/

/-- C6, as amended. In a lifecycle (fresh holder, `n ≥ 1` calls of `instance()`, then
process exit) where one of the calls constructs (`create()` call `k < n` returns `p`,
not null, the earlier ones having thrown), exactly one hook is registered at exit,
`destroy()` is called exactly once, on `p`, and the slot, populated until then, is
emptied by that one run. -/
theorem C6_destroy_exactly_once {T : Type} (P : CreatePolicy T) (n k : Nat) (p : Ptr)
    (hk : k < n) (hf : ∀ j, j < k → ∃ e, P.create j = .error e)
    (hc : P.create k = .ok p) (hp : p ≠ 0) :
    (calls P n (World.init T)).2.atexit = [Hook.DestroySingleton]
      ∧ (calls P n (World.init T)).2.pInstance_ = p
      ∧ (calls P n (World.init T)).2.destroys = []
      ∧ (exit (calls P n (World.init T)).2).destroys = [p]
      ∧ (exit (calls P n (World.init T)).2).destroys.length = 1
      ∧ (exit (calls P n (World.init T)).2).pInstance_ = 0
      ∧ (exit (calls P n (World.init T)).2).destroyed_ = true
      ∧ (exit (calls P n (World.init T)).2).atexit = []
      ∧ (exit (calls P n (World.init T)).2).heap = [] := by
  obtain ⟨m, rfl⟩ : ∃ m, n = k + (m + 1) := ⟨n - k - 1, by omega⟩
  have hfail := (calls_all_raise P k (World.init T) rfl rfl
    (by intro j hj; simpa [World.init] using hf j hj)).1
  have hck : P.create ({ World.init T with creates := (World.init T).creates + k } :
      World T).creates = .ok p := by simpa [World.init] using hc
  have hstep := instance_create_ok P
    { World.init T with creates := (World.init T).creates + k } p rfl rfl hck hp
  have hfinal : (calls P (k + (m + 1)) (World.init T)).2
      = { World.init T with
          creates := k + 1
          constructed := [p]
          heap := [(p, P.value)]
          pInstance_ := p
          atexit := [Hook.DestroySingleton] } := by
    rw [calls_add, hfail]
    simp only [calls, hstep]
    rw [calls_populated P m _ hp]
    simp [World.init, Heap.write, Heap.free]
  rw [hfinal]
  simp [exit, runHooks, Hook.run, singleton.DestroySingleton, World.init, Heap.free]

/-- C6 as amended, at three calls with `failsOnce`, whose second `create()` succeeds. -/
theorem C6_destroy_once_witness :
    (1 < 3 ∧ failsOnce.create 1 = .ok 7)
      ∧ (exit (calls failsOnce 3 (World.init Nat)).2).destroys = [7] :=
  ⟨⟨by decide, rfl⟩,
   (C6_destroy_exactly_once failsOnce 3 1 7 (by decide)
      (by intro j hj; exact ⟨.other 1, by interval_cases j; rfl⟩) rfl (by decide)).2.2.2.1⟩

/-- C6 fails as stated: in the lifecycle of a fresh holder with one call of
`instance()` whose `create()` throws, then process exit, `destroy()` is called zero
times. -/
theorem C6_destroy_zero_times :
    (calls alwaysFails 1 (World.init Nat)).1 = [.raise (.other 1)]
      ∧ (calls alwaysFails 1 (World.init Nat)).2.atexit = []
      ∧ (exit (calls alwaysFails 1 (World.init Nat)).2).destroys = []
      ∧ (exit (calls alwaysFails 1 (World.init Nat)).2).destroys.length ≠ 1 := by
  decide

/-- C7, as amended. In every state reached from the fresh process by calls of
`instance()` and runs of registered hooks, in any order, the number of payloads
constructed (the `create()` calls that returned one; a call that threw constructed
nothing) minus the number of `destroy()` calls is `0` or `1`, it is `1` exactly when
the slot is populated, and it is the number of payload objects alive. The payloads
constructed are at most as many as the `create()` calls, and as many when `create()`
never throws: then the count of `create()` calls minus `destroy()` calls is itself `0`
or `1`, and `1` exactly when the slot is populated. -/
theorem C7_at_most_one_live {T : Type} (P : CreatePolicy T) (as : List Action) (w : World T)
    (hr : run P as (World.init T) = some w) :
    ((w.constructed.length : Int) - w.destroys.length = 0
        ∨ (w.constructed.length : Int) - w.destroys.length = 1)
      ∧ ((w.constructed.length : Int) - w.destroys.length = 1 ↔ w.pInstance_ ≠ 0)
      ∧ (w.heap.length : Int) = (w.constructed.length : Int) - w.destroys.length
      ∧ w.constructed.length ≤ w.creates
      ∧ ((∀ k, ∃ p, P.create k = .ok p) →
          ((w.creates : Int) - w.destroys.length = 0
              ∨ (w.creates : Int) - w.destroys.length = 1)
            ∧ ((w.creates : Int) - w.destroys.length = 1 ↔ w.pInstance_ ≠ 0)) := by
  have hw := wellFormed_run P as (World.init T) w (wellFormed_init T) hr
  have hcount := counts_run P as (World.init T) w hr
  have hle : w.constructed.length ≤ w.creates := hcount.1 (by simp [World.init])
  have hmain : ((w.constructed.length : Int) - w.destroys.length = 0
        ∨ (w.constructed.length : Int) - w.destroys.length = 1)
      ∧ ((w.constructed.length : Int) - w.destroys.length = 1 ↔ w.pInstance_ ≠ 0)
      ∧ (w.heap.length : Int) = (w.constructed.length : Int) - w.destroys.length := by
    by_cases h0 : w.pInstance_ = 0
    · obtain ⟨_, hheap, hlen⟩ := hw.1 h0
      have hnil : w.heap = [] := by simpa using hheap
      simp [h0, hlen, hnil]
    · obtain ⟨_, _, hheap, hlen⟩ := hw.2 h0
      have hone : w.heap.length = 1 := by
        have := congrArg List.length hheap
        simpa using this
      simp [h0, hlen, hone]
  refine ⟨hmain.1, hmain.2.1, hmain.2.2, hle, ?_⟩
  intro hP
  have heq : w.creates = w.constructed.length := hcount.2 hP (by simp [World.init])
  rw [heq]
  exact ⟨hmain.1, hmain.2.1⟩

/-- C7 as amended, at the state after a call, the hook, a failed call and a
reconstruction. -/
theorem C7_at_most_one_live_witness :
    run counterStatic [.call, .hook, .call, .call, .call] (World.init Nat)
        = some { pInstance_ := 7, destroyed_ := false, creates := 2, constructed := [7, 7],
                 destroys := [7], atexit := [.DestroySingleton], heap := [(7, 0)] }
      ∧ ((2 : Int) - 1 = 1 ↔ (7 : Nat) ≠ 0) :=
  ⟨by decide,
   (C7_at_most_one_live counterStatic [.call, .hook, .call, .call, .call]
      { pInstance_ := 7, destroyed_ := false, creates := 2, constructed := [7, 7],
        destroys := [7], atexit := [.DestroySingleton], heap := [(7, 0)] } (by decide)).2.1⟩

/-- C7 fails as stated, with the count of `create()` calls: after one call of
`instance()` whose `create()` throws, `create()` calls minus `destroy()` calls is `1`
while the slot is empty; after two such calls it is `2`. -/
theorem C7_create_calls_overcount :
    run failsOnce [.call] (World.init Nat)
        = some { pInstance_ := 0, destroyed_ := false, creates := 1, constructed := [],
                 destroys := [], atexit := [], heap := [] }
      ∧ run alwaysFails [.call, .call] (World.init Nat)
        = some { pInstance_ := 0, destroyed_ := false, creates := 2, constructed := [],
                 destroys := [], atexit := [], heap := [] }
      ∧ ¬ (∀ w, run failsOnce [.call] (World.init Nat) = some w →
            ((w.creates : Int) - w.destroys.length = 1 ↔ w.pInstance_ ≠ 0))
      ∧ ¬ (∀ w, run alwaysFails [.call, .call] (World.init Nat) = some w →
            ((w.creates : Int) - w.destroys.length = 0
              ∨ (w.creates : Int) - w.destroys.length = 1)) := by
  refine ⟨by decide, by decide, ?_, ?_⟩
  · intro h
    have h1 := h { pInstance_ := 0, destroyed_ := false, creates := 1, constructed := [],
                   destroys := [], atexit := [], heap := [] } (by decide)
    simp at h1
  · intro h
    have h2 := h { pInstance_ := 0, destroyed_ := false, creates := 2, constructed := [],
                   destroys := [], atexit := [], heap := [] } (by decide)
    simp at h2

/-! ## The conversion helpers -/

/-- C9. Whenever the sizing call of the conversion routine (null output buffer)
reports a required size of zero, `utf16_to_utf8` and `utf8_to_utf16` return the empty
string, for every input string. -/
theorem C9_zero_size_gives_empty (WideCharToMultiByte MultiByteToWideChar : Conv)
    (wstr str : List Nat)
    (hw : (WideCharToMultiByte (c_str wstr) 0).1 = 0)
    (hm : (MultiByteToWideChar (c_str str) 0).1 = 0) :
    utf16_to_utf8 WideCharToMultiByte wstr = []
      ∧ utf8_to_utf16 MultiByteToWideChar str = [] := by
  simp [utf16_to_utf8, utf8_to_utf16, hw, hm]

/-- C9 with a routine that reports zero for every input. -/
theorem C9_zero_size_witness :
    ((reportsZero (c_str [104, 105]) 0).1 = 0 ∧ (reportsZero (c_str [104, 105]) 0).1 = 0)
      ∧ utf16_to_utf8 reportsZero [104, 105] = []
      ∧ utf8_to_utf16 reportsZero [104, 105] = [] :=
  ⟨by decide, C9_zero_size_gives_empty reportsZero reportsZero [104, 105] [104, 105] rfl rfl⟩

/-! ## The reset on a dead reference -/

/-- C10. In every state with the slot empty and `destroyed_` set, `instance()` clears
`destroyed_` and then throws the dead-reference error, leaving the uninitialised state
(slot empty, `destroyed_` clear, nothing else changed); the next call, when its
`create()` returns `p`, not null, does not throw: it constructs, stores `p`, registers
the teardown hook again and returns `p`. -/
theorem C10_dead_reference_resets {T : Type} (P : CreatePolicy T) (w : World T)
    (h0 : w.pInstance_ = 0) (hd : w.destroyed_ = true) :
    singleton.instance' P w
        = (.raise singleton.onDeadReference, { w with destroyed_ := false })
      ∧ (singleton.instance' P w).2.pInstance_ = 0
      ∧ (singleton.instance' P w).2.destroyed_ = false
      ∧ ∀ p, P.create w.creates = .ok p → p ≠ 0 →
          (singleton.instance' P (singleton.instance' P w).2).1 = .ref p
            ∧ (singleton.instance' P (singleton.instance' P w).2).2.pInstance_ = p
            ∧ (singleton.instance' P (singleton.instance' P w).2).2.creates = w.creates + 1
            ∧ (singleton.instance' P (singleton.instance' P w).2).2.constructed
                = p :: w.constructed
            ∧ (singleton.instance' P (singleton.instance' P w).2).2.atexit
                = Hook.DestroySingleton :: w.atexit := by
  rw [instance_dead P w h0 hd]
  refine ⟨rfl, h0, rfl, ?_⟩
  intro p hc hp
  rw [instance_create_ok P { w with destroyed_ := false } p h0 rfl hc hp]
  exact ⟨rfl, rfl, rfl, rfl, rfl⟩

/-- C10 at `tornDown`: the failed call, then a reconstruction at address `7`. -/
theorem C10_dead_reference_resets_witness :
    (tornDown.pInstance_ = 0 ∧ tornDown.destroyed_ = true)
      ∧ (singleton.instance' counterStatic tornDown).2.destroyed_ = false
      ∧ (singleton.instance' counterStatic
          (singleton.instance' counterStatic tornDown).2).1 = .ref 7 :=
  ⟨by decide,
   (C10_dead_reference_resets counterStatic tornDown (by decide) (by decide)).2.2.1,
   ((C10_dead_reference_resets counterStatic tornDown (by decide) (by decide)).2.2.2
      7 rfl (by decide)).1⟩

/-! ## The steps of the lifecycle -/

/-- C11. In every state with the slot populated, `instance()` returns a reference to
the stored instance and leaves the whole state as it was: slot, `destroyed_`, count of
`create()` calls, registered hooks, and the rest. -/
theorem C11_fast_path_changes_nothing {T : Type} (P : CreatePolicy T) (w : World T)
    (h : w.pInstance_ ≠ 0) :
    (singleton.instance' P w).1 = .ref w.pInstance_
      ∧ (singleton.instance' P w).2 = w
      ∧ (singleton.instance' P w).2.pInstance_ = w.pInstance_
      ∧ (singleton.instance' P w).2.destroyed_ = w.destroyed_
      ∧ (singleton.instance' P w).2.creates = w.creates
      ∧ (singleton.instance' P w).2.atexit = w.atexit := by
  rw [instance_populated P w h]
  exact ⟨rfl, rfl, rfl, rfl, rfl, rfl⟩

/-- C11 at `populated`, whose slot holds address `7`. -/
theorem C11_fast_path_witness :
    populated.pInstance_ ≠ 0
      ∧ (singleton.instance' counterStatic populated).1 = .ref 7
      ∧ (singleton.instance' counterStatic populated).2 = populated :=
  ⟨by decide,
   (C11_fast_path_changes_nothing counterStatic populated (by decide)).1,
   (C11_fast_path_changes_nothing counterStatic populated (by decide)).2.1⟩

/-- C12. In every uninitialised state (slot empty, `destroyed_` clear), when `create()`
succeeds with instance `p` (not null), `instance()` calls `create()` exactly once,
stores `p` in the slot, returns a reference to `p`, leaves `destroyed_` clear and
registers exactly one hook, `DestroySingleton`. -/
theorem C12_first_use_constructs {T : Type} (P : CreatePolicy T) (w : World T) (p : Ptr)
    (h0 : w.pInstance_ = 0) (hd : w.destroyed_ = false)
    (hc : P.create w.creates = .ok p) (hp : p ≠ 0) :
    (singleton.instance' P w).1 = .ref p
      ∧ (singleton.instance' P w).2.creates = w.creates + 1
      ∧ (singleton.instance' P w).2.constructed = p :: w.constructed
      ∧ (singleton.instance' P w).2.pInstance_ = p
      ∧ (singleton.instance' P w).2.destroyed_ = false
      ∧ (singleton.instance' P w).2.atexit = Hook.DestroySingleton :: w.atexit
      ∧ (singleton.instance' P w).2.atexit.length = w.atexit.length + 1
      ∧ (singleton.instance' P w).2.destroys = w.destroys
      ∧ (singleton.instance' P w).2.heap.read p = some P.value := by
  rw [instance_create_ok P w p h0 hd hc hp]
  refine ⟨rfl, rfl, rfl, rfl, hd, rfl, ?_, rfl, ?_⟩
  · simp
  · simp [Heap.read, Heap.write]

/-- C12 at the fresh process with `counterStatic`. -/
theorem C12_first_use_witness :
    ((World.init Nat).pInstance_ = 0 ∧ (World.init Nat).destroyed_ = false
        ∧ counterStatic.create (World.init Nat).creates = .ok 7)
      ∧ (singleton.instance' counterStatic (World.init Nat)).1 = .ref 7
      ∧ (singleton.instance' counterStatic (World.init Nat)).2.creates = 1
      ∧ (singleton.instance' counterStatic (World.init Nat)).2.atexit = [.DestroySingleton] :=
  ⟨⟨rfl, rfl, rfl⟩,
   (C12_first_use_constructs counterStatic (World.init Nat) 7 rfl rfl rfl (by decide)).1,
   (C12_first_use_constructs counterStatic (World.init Nat) 7 rfl rfl rfl (by decide)).2.1,
   (C12_first_use_constructs counterStatic (World.init Nat) 7 rfl rfl rfl
      (by decide)).2.2.2.2.2.1⟩

/-- C13. In every state whose slot holds instance `p`, `DestroySingleton` calls
`destroy()` exactly once, on `p`, and leaves the slot empty and `destroyed_` set; it
touches neither the count of `create()` calls nor the registered hooks. -/
theorem C13_teardown_postcondition {T : Type} (w : World T) (p : Ptr)
    (hs : w.pInstance_ = p) (hp : p ≠ 0) :
    (singleton.DestroySingleton w).destroys = p :: w.destroys
      ∧ (singleton.DestroySingleton w).destroys.length = w.destroys.length + 1
      ∧ (singleton.DestroySingleton w).pInstance_ = 0
      ∧ (singleton.DestroySingleton w).destroyed_ = true
      ∧ (singleton.DestroySingleton w).heap.read p = none
      ∧ (singleton.DestroySingleton w).creates = w.creates
      ∧ (singleton.DestroySingleton w).atexit = w.atexit := by
  subst hs
  refine ⟨rfl, by simp [singleton.DestroySingleton], rfl, rfl, ?_, rfl, rfl⟩
  simp [singleton.DestroySingleton, Heap.read, Heap.free]

/-- C13 at `populated`, whose slot holds address `7`. -/
theorem C13_teardown_witness :
    (populated.pInstance_ = 7 ∧ (7 : Ptr) ≠ 0)
      ∧ (singleton.DestroySingleton populated).destroys = [7]
      ∧ (singleton.DestroySingleton populated).pInstance_ = 0
      ∧ (singleton.DestroySingleton populated).destroyed_ = true :=
  ⟨by decide,
   (C13_teardown_postcondition populated 7 (by decide) (by decide)).1,
   (C13_teardown_postcondition populated 7 (by decide) (by decide)).2.2.1,
   (C13_teardown_postcondition populated 7 (by decide) (by decide)).2.2.2.1⟩

/-! ## What holds in every reached state -/

/-- C14. In every state reached from the fresh process (slot empty, `destroyed_`
clear) by calls of `instance()` and runs of registered hooks, the slot is not
populated while `destroyed_` is set: the two members are in one of the three states
uninitialised, initialised, destroyed. -/
theorem C14_never_populated_and_destroyed {T : Type} (P : CreatePolicy T)
    (as : List Action) (w : World T) (hr : run P as (World.init T) = some w) :
    ¬ (w.pInstance_ ≠ 0 ∧ w.destroyed_ = true)
      ∧ ((w.pInstance_ = 0 ∧ w.destroyed_ = false)
          ∨ (w.pInstance_ ≠ 0 ∧ w.destroyed_ = false)
          ∨ (w.pInstance_ = 0 ∧ w.destroyed_ = true)) := by
  have hw := wellFormed_run P as (World.init T) w (wellFormed_init T) hr
  by_cases h0 : w.pInstance_ = 0
  · cases hd : w.destroyed_ <;> simp [h0]
  · have hd := (hw.2 h0).2.1
    simp [h0, hd]

/-- C14 at the state after a call, the hook, a failed call and a reconstruction. -/
theorem C14_never_populated_and_destroyed_witness :
    run counterStatic [.call, .hook, .call, .call] (World.init Nat)
        = some { pInstance_ := 7, destroyed_ := false, creates := 2, constructed := [7, 7],
                 destroys := [7], atexit := [.DestroySingleton], heap := [(7, 0)] }
      ∧ ¬ ((7 : Ptr) ≠ 0 ∧ false = true) :=
  ⟨by decide,
   (C14_never_populated_and_destroyed counterStatic [.call, .hook, .call, .call]
      { pInstance_ := 7, destroyed_ := false, creates := 2, constructed := [7, 7],
        destroys := [7], atexit := [.DestroySingleton], heap := [(7, 0)] } (by decide)).1⟩

/-- C15. In every reached state the number of registered hooks not yet run is `1` when
the slot is populated and `0` when it is empty; so a run of `DestroySingleton` from a
reached state finds the slot populated and hands `destroy()` that non-null pointer,
and every argument `destroy()` has been given so far is non-null, also after a
reconstruction that follows a dead-reference failure. -/
theorem C15_hook_never_runs_on_empty_slot {T : Type} (P : CreatePolicy T)
    (as : List Action) (w : World T) (hr : run P as (World.init T) = some w) :
    (w.pInstance_ ≠ 0 → w.atexit.length = 1)
      ∧ (w.pInstance_ = 0 → w.atexit.length = 0)
      ∧ (∀ w1, step P .hook w = some w1 →
          w.pInstance_ ≠ 0 ∧ w1.destroys = w.pInstance_ :: w.destroys)
      ∧ (∀ q ∈ w.destroys, q ≠ 0) := by
  have hw := wellFormed_run P as (World.init T) w (wellFormed_init T) hr
  have hn := destroys_run P as (World.init T) w (wellFormed_init T)
    (by simp [World.init]) hr
  refine ⟨?_, ?_, ?_, hn⟩
  · intro h0
    simp [(hw.2 h0).1]
  · intro h0
    simp [(hw.1 h0).1]
  · intro w1 hs
    by_cases h0 : w.pInstance_ = 0
    · simp [step, (hw.1 h0).1] at hs
    · refine ⟨h0, ?_⟩
      simp only [step, (hw.2 h0).1, Hook.run] at hs
      cases hs
      rfl

/-- C15 at the state after a call, the hook, a failed call, a reconstruction and the
second run of the hook: both runs were given address `7`. -/
theorem C15_hook_never_runs_on_empty_slot_witness :
    run counterStatic [.call, .hook, .call, .call, .hook] (World.init Nat)
        = some { pInstance_ := 0, destroyed_ := true, creates := 2, constructed := [7, 7],
                 destroys := [7, 7], atexit := [], heap := [] }
      ∧ (∀ q ∈ [7, 7], q ≠ 0) :=
  ⟨by decide,
   (C15_hook_never_runs_on_empty_slot counterStatic [.call, .hook, .call, .call, .hook]
      { pInstance_ := 0, destroyed_ := true, creates := 2, constructed := [7, 7],
        destroys := [7, 7], atexit := [], heap := [] } (by decide)).2.2.2⟩

/-- C16. With a creation policy whose `create()` returns a non-null pointer or throws,
in every state (reached or not) `instance()` does not come to dereference a null
slot: either it throws, the dead-reference error or the exception of `create()`, or
it returns the slot with the slot populated. -/
theorem C16_never_dereferences_null {T : Type} (P : CreatePolicy T) (w : World T)
    (hP : ∀ k p, P.create k = .ok p → p ≠ 0) :
    (singleton.instance' P w).1 ≠ .undefined
      ∧ (((singleton.instance' P w).1 = .raise singleton.onDeadReference
            ∧ w.pInstance_ = 0 ∧ w.destroyed_ = true)
          ∨ (∃ e, (singleton.instance' P w).1 = .raise e
            ∧ P.create w.creates = .error e ∧ w.pInstance_ = 0 ∧ w.destroyed_ = false)
          ∨ ((singleton.instance' P w).1 = .ref (singleton.instance' P w).2.pInstance_
            ∧ (singleton.instance' P w).2.pInstance_ ≠ 0)) := by
  by_cases h0 : w.pInstance_ = 0
  · cases hd : w.destroyed_ with
    | true =>
      rw [instance_dead P w h0 hd]
      exact ⟨by simp, Or.inl ⟨rfl, h0, rfl⟩⟩
    | false =>
      cases hc : P.create w.creates with
      | error e =>
        rw [instance_create_error P w e h0 hd hc]
        exact ⟨by simp, Or.inr (Or.inl ⟨e, rfl, rfl, h0, rfl⟩)⟩
      | ok p =>
        have hp := hP w.creates p hc
        rw [instance_create_ok P w p h0 hd hc hp]
        exact ⟨by simp, Or.inr (Or.inr ⟨rfl, hp⟩)⟩
  · rw [instance_populated P w h0]
    exact ⟨by simp, Or.inr (Or.inr ⟨rfl, h0⟩)⟩

/-- C16 with `counterStatic`, whose `create()` returns address `7`, at `tornDown` and
at the fresh process. -/
theorem C16_never_dereferences_null_witness :
    (∀ k p, counterStatic.create k = .ok p → p ≠ 0)
      ∧ (singleton.instance' counterStatic tornDown).1 ≠ .undefined
      ∧ (singleton.instance' counterStatic (World.init Nat)).1 ≠ .undefined :=
  have hP : ∀ k p, counterStatic.create k = .ok p → p ≠ 0 := by
    intro k p h
    have h7 : p = 7 := by
      simp only [counterStatic, CreateStatic, Except.ok.injEq] at h
      exact h.symm
    rw [h7]
    decide
  ⟨hP, (C16_never_dereferences_null counterStatic tornDown hP).1,
   (C16_never_dereferences_null counterStatic (World.init Nat) hP).1⟩

end mapnik
